import Mathlib

/-!
Verification development for the rowing-metrics core of the
ESP32RowingMachine firmware.

The C sources under src/main are shallowly embedded: C float arithmetic
is modelled by exact rational arithmetic over the same expressions,
64-bit microsecond timestamps by integers, C unsigned integers by
naturals with explicit conversions (a cast of a signed 64-bit value to
uint32_t is value mod 2^32), and C integer division (which truncates
toward zero) by Int.tdiv.  The cube root used by
rowing_physics_calculate_distance (cbrtf) is kept as an explicit
function parameter, since only its clamped value matters to the
properties below.  Functions that in C mutate a rowing_metrics_t in
place are modelled as state transformers.
-/

namespace RowingMachine

/-- Compile-time constants from app_config.h.  TWO_PI is the literal
written in the source. -/
def TWO_PI : ℚ := 6.283185307179586

def DEFAULT_MAGNETS_PER_REV : ℕ := 4

def MINIMUM_STROKE_DURATION_MS : ℕ := 500

def IDLE_TIMEOUT_MS : ℤ := 5000

def DRIVE_START_VELOCITY_THRESHOLD : ℚ := 15.0

def DRIVE_ACCELERATION_THRESHOLD : ℚ := 10.0

def RECOVERY_VELOCITY_THRESHOLD : ℚ := 8.0

def DEFAULT_DISTANCE_PER_REV : ℚ := 2.8

/-- Conversion of a signed 64-bit value to uint32_t in C: value mod 2^32. -/
def u32ofInt (x : ℤ) : ℕ := (Int.emod x 4294967296).toNat

/-- Truncation toward zero of a rational, the semantics of a C cast from
a floating-point value to an integer type. -/
def ratTrunc (q : ℚ) : ℤ := Int.tdiv q.num (q.den : ℤ)

/-- Stroke phase enumeration from rowing_physics.h. -/
inductive StrokePhase
  | idle
  | drive
  | recovery
deriving DecidableEq, Repr

/-- The rowing_metrics_t aggregate from rowing_physics.h. -/
structure RowingMetrics where
  session_start_time_us : ℤ
  last_update_time_us : ℤ
  elapsed_time_ms : ℕ
  flywheel_pulse_count : ℕ
  last_flywheel_time_us : ℤ
  prev_flywheel_time_us : ℤ
  seat_trigger_count : ℕ
  angular_velocity_rad_s : ℚ
  prev_angular_velocity_rad_s : ℚ
  angular_acceleration_rad_s2 : ℚ
  peak_velocity_in_stroke : ℚ
  drag_coefficient : ℚ
  moment_of_inertia : ℚ
  drag_factor : ℚ
  drag_calibration_samples : ℕ
  current_phase : StrokePhase
  stroke_count : ℕ
  last_stroke_start_time_us : ℤ
  last_stroke_end_time_us : ℤ
  stroke_rate_spm : ℚ
  avg_stroke_rate_spm : ℚ
  drive_phase_duration_ms : ℕ
  recovery_phase_duration_ms : ℕ
  instantaneous_power_watts : ℚ
  average_power_watts : ℚ
  peak_power_watts : ℚ
  display_power_watts : ℚ
  total_work_joules : ℚ
  drive_phase_work_joules : ℚ
  total_distance_meters : ℚ
  instantaneous_pace_sec_500m : ℚ
  average_pace_sec_500m : ℚ
  best_pace_sec_500m : ℚ
  distance_per_stroke_meters : ℚ
  total_calories : ℕ
  calories_per_hour : ℚ
  is_active : Bool
  calibration_complete : Bool
  valid_data : Bool
  is_paused : Bool
  pause_start_time_us : ℤ
  last_resume_time_us : ℤ
  total_paused_time_ms : ℕ

/-- The configuration fields of config_t that the embedded functions read. -/
structure PhysicsConfig where
  moment_of_inertia : ℚ
  initial_drag_coefficient : ℚ

/-- The module-level detection thresholds of stroke_detector.c
(g_drive_start_velocity, g_drive_accel_threshold, g_recovery_velocity,
g_distance_calibration). -/
structure DetectorConfig where
  drive_start_velocity : ℚ
  drive_accel_threshold : ℚ
  recovery_velocity : ℚ
  distance_calibration : ℚ

def defaultDetectorConfig : DetectorConfig where
  drive_start_velocity := DRIVE_START_VELOCITY_THRESHOLD
  drive_accel_threshold := DRIVE_ACCELERATION_THRESHOLD
  recovery_velocity := RECOVERY_VELOCITY_THRESHOLD
  distance_calibration := DEFAULT_DISTANCE_PER_REV

/-- The all-zero rowing_metrics_t produced by memset(metrics, 0, ...). -/
def zeroMetrics : RowingMetrics where
  session_start_time_us := 0
  last_update_time_us := 0
  elapsed_time_ms := 0
  flywheel_pulse_count := 0
  last_flywheel_time_us := 0
  prev_flywheel_time_us := 0
  seat_trigger_count := 0
  angular_velocity_rad_s := 0
  prev_angular_velocity_rad_s := 0
  angular_acceleration_rad_s2 := 0
  peak_velocity_in_stroke := 0
  drag_coefficient := 0
  moment_of_inertia := 0
  drag_factor := 0
  drag_calibration_samples := 0
  current_phase := StrokePhase.idle
  stroke_count := 0
  last_stroke_start_time_us := 0
  last_stroke_end_time_us := 0
  stroke_rate_spm := 0
  avg_stroke_rate_spm := 0
  drive_phase_duration_ms := 0
  recovery_phase_duration_ms := 0
  instantaneous_power_watts := 0
  average_power_watts := 0
  peak_power_watts := 0
  display_power_watts := 0
  total_work_joules := 0
  drive_phase_work_joules := 0
  total_distance_meters := 0
  instantaneous_pace_sec_500m := 0
  average_pace_sec_500m := 0
  best_pace_sec_500m := 0
  distance_per_stroke_meters := 0
  total_calories := 0
  calories_per_hour := 0
  is_active := false
  calibration_complete := false
  valid_data := false
  is_paused := false
  pause_start_time_us := 0
  last_resume_time_us := 0
  total_paused_time_ms := 0

/-- rowing_physics_reset from rowing_physics.c: memset to zero, then
restore moment of inertia, drag coefficient and calibration flag, keep
the timer at zero, set phase Idle, the best-pace sentinel, and start in
the paused state. -/
def rowing_physics_reset (m : RowingMetrics) : RowingMetrics :=
  { zeroMetrics with
    moment_of_inertia := m.moment_of_inertia
    drag_coefficient := m.drag_coefficient
    calibration_complete := m.calibration_complete
    session_start_time_us := 0
    current_phase := StrokePhase.idle
    best_pace_sec_500m := 999999
    is_paused := true }

/-- metrics_calculator_reset from metrics_calculator.c delegates to
rowing_physics_reset. -/
def metrics_calculator_reset (m : RowingMetrics) : RowingMetrics :=
  rowing_physics_reset m

/-- rowing_physics_reset_calibration from rowing_physics.c. -/
def rowing_physics_reset_calibration (m : RowingMetrics) (config : PhysicsConfig) :
    RowingMetrics :=
  { m with
    drag_coefficient := config.initial_drag_coefficient
    drag_factor := 0
    drag_calibration_samples := 0
    calibration_complete := false }

/-- rowing_physics_update_elapsed_time from rowing_physics.c.  The
argument now stands for esp_timer_get_time(). -/
def rowing_physics_update_elapsed_time (m : RowingMetrics) (now : ℤ) : RowingMetrics :=
  if m.is_paused then m
  else if m.session_start_time_us = 0 then { m with elapsed_time_ms := 0 }
  else
    let raw_elapsed_ms := u32ofInt (Int.tdiv (now - m.session_start_time_us) 1000)
    if raw_elapsed_ms > m.total_paused_time_ms then
      { m with elapsed_time_ms := raw_elapsed_ms - m.total_paused_time_ms }
    else
      { m with elapsed_time_ms := 0 }

/-- rowing_physics_calibrate_drag from rowing_physics.c. -/
def rowing_physics_calibrate_drag (m : RowingMetrics) (omega alpha : ℚ) : RowingMetrics :=
  if |omega| < 1 then m
  else
    let measured_k := -m.moment_of_inertia * alpha / (omega * omega)
    if measured_k < 0 ∨ measured_k > 0.01 then m
    else
      let alpha_filter : ℚ := 0.05
      let k1 := if m.drag_calibration_samples = 0 then measured_k
                else (1 - alpha_filter) * m.drag_coefficient + alpha_filter * measured_k
      let samples1 := m.drag_calibration_samples + 1
      let complete1 := if samples1 ≥ 50 ∧ ¬ (m.calibration_complete = true) then true
                       else m.calibration_complete
      { m with
        drag_coefficient := k1
        drag_calibration_samples := samples1
        drag_factor := k1 * 1000000
        calibration_complete := complete1 }

/-- The clamped instantaneous power computed at the top of
rowing_physics_calculate_power: I * alpha * omega + k * omega^3, clamped
to [0, 2000]. -/
def powerClamped (m : RowingMetrics) : ℚ :=
  let accel_power := m.moment_of_inertia * m.angular_acceleration_rad_s2
                       * m.angular_velocity_rad_s
  let drag_power := m.drag_coefficient * m.angular_velocity_rad_s
                      * m.angular_velocity_rad_s * m.angular_velocity_rad_s
  let total_power0 := accel_power + drag_power
  let total_power1 := if total_power0 < 0 then 0 else total_power0
  if total_power1 > 2000 then 2000 else total_power1

/-- The clamped Concept2-style display power computed from the average
pace inside rowing_physics_calculate_power: 2.80 / pace_per_meter^3,
clamped to [0, 1000]. -/
def concept2Clamped (average_pace_sec_500m : ℚ) : ℚ :=
  let pace_per_meter := average_pace_sec_500m / 500
  let concept2_power0 := 2.80 / (pace_per_meter * pace_per_meter * pace_per_meter)
  let concept2_power1 := if concept2_power0 < 0 then 0 else concept2_power0
  if concept2_power1 > 1000 then 1000 else concept2_power1

/-- rowing_physics_calculate_power from rowing_physics.c, with the two
arithmetic blocks factored into powerClamped and concept2Clamped. -/
def rowing_physics_calculate_power (m : RowingMetrics) : RowingMetrics :=
  let total_power := powerClamped m
  let m1 := { m with instantaneous_power_watts := total_power }
  let m2 := if total_power > m1.peak_power_watts then
              { m1 with peak_power_watts := total_power }
            else m1
  let m3 := if m2.current_phase = StrokePhase.drive ∧ total_power > 0 then
              { m2 with
                drive_phase_work_joules := m2.drive_phase_work_joules + total_power * 0.05
                total_work_joules := m2.total_work_joules + total_power * 0.05 }
            else m2
  if m3.average_pace_sec_500m > 60 ∧ m3.average_pace_sec_500m < 9999 then
    let concept2_power := concept2Clamped m3.average_pace_sec_500m
    let dp := if m3.display_power_watts = 0 then concept2_power
              else 0.7 * m3.display_power_watts + 0.3 * concept2_power
    { m3 with display_power_watts := dp, average_power_watts := dp }
  else m3

/-- rowing_physics_calculate_pace from rowing_physics.c. -/
def rowing_physics_calculate_pace (m : RowingMetrics) : RowingMetrics :=
  let elapsed_s : ℚ := (m.elapsed_time_ms : ℚ) / 1000
  if m.total_distance_meters < 1 ∨ elapsed_s < 0.1 then
    { m with
      instantaneous_pace_sec_500m := 999999
      average_pace_sec_500m := 999999 }
  else
    let avg := elapsed_s / m.total_distance_meters * 500
    let m1 := { m with
                average_pace_sec_500m := avg
                instantaneous_pace_sec_500m := avg }
    if m1.instantaneous_pace_sec_500m < m1.best_pace_sec_500m ∧
        m1.instantaneous_pace_sec_500m > 60 then
      { m1 with best_pace_sec_500m := m1.instantaneous_pace_sec_500m }
    else m1

/-- The clamp of the per-stroke distance in
rowing_physics_calculate_distance, exactly as the two ifs in the source. -/
def clamp2_20 (x : ℚ) : ℚ :=
  let d2 := if x < 2 then 2 else x
  if d2 > 20 then 20 else d2

/-- rowing_physics_calculate_distance from rowing_physics.c.  The
calibration_factor argument is unused in the source ((void) cast).  The
cbrt parameter stands for cbrtf. -/
def rowing_physics_calculate_distance (cbrt : ℚ → ℚ) (m : RowingMetrics)
    (calibration_factor : ℚ) : RowingMetrics :=
  let work_joules := m.drive_phase_work_joules
  let distance_this_stroke : ℚ :=
    if work_joules > 0.1 then clamp2_20 (cbrt (work_joules / 2.80)) else 0
  let m1 := { m with
              total_distance_meters := m.total_distance_meters + distance_this_stroke
              distance_per_stroke_meters := distance_this_stroke
              drive_phase_work_joules := 0 }
  rowing_physics_calculate_pace m1

/-- stroke_detector_calculate_stroke_rate from stroke_detector.c.  The
argument now stands for esp_timer_get_time() in the average-rate
computation. -/
def stroke_detector_calculate_stroke_rate (m : RowingMetrics) (now : ℤ) : RowingMetrics :=
  if m.stroke_count < 2 then { m with stroke_rate_spm := 0 }
  else
    let stroke_cycle_ms := m.drive_phase_duration_ms + m.recovery_phase_duration_ms
    if stroke_cycle_ms < 500 then m
    else
      let instantaneous_spm0 : ℚ := 60000 / (stroke_cycle_ms : ℚ)
      let instantaneous_spm1 := if instantaneous_spm0 < 10 then 10 else instantaneous_spm0
      let instantaneous_spm := if instantaneous_spm1 > 60 then 60 else instantaneous_spm1
      let m1 := if m.stroke_rate_spm = 0 then
                  { m with stroke_rate_spm := instantaneous_spm }
                else
                  { m with stroke_rate_spm :=
                      0.7 * m.stroke_rate_spm + 0.3 * instantaneous_spm }
      let elapsed_min : ℚ := ((now - m1.session_start_time_us : ℤ) : ℚ) / 60000000
      if elapsed_min > 0.1 then
        { m1 with avg_stroke_rate_spm := (m1.stroke_count : ℚ) / elapsed_min }
      else m1

/-- stroke_detector_update from stroke_detector.c.  The argument now
stands for esp_timer_get_time(). -/
def stroke_detector_update (cbrt : ℚ → ℚ) (g : DetectorConfig) (m : RowingMetrics)
    (now : ℤ) : RowingMetrics :=
  let omega := m.angular_velocity_rad_s
  let alpha := m.angular_acceleration_rad_s2
  match m.current_phase with
  | StrokePhase.idle =>
      if omega > g.drive_start_velocity ∧ alpha > g.drive_accel_threshold then
        { m with
          current_phase := StrokePhase.drive
          last_stroke_start_time_us := now
          peak_velocity_in_stroke := omega
          drive_phase_work_joules := 0
          display_power_watts := 0 }
      else m
  | StrokePhase.drive =>
      let m1 := if omega > m.peak_velocity_in_stroke then
                  { m with peak_velocity_in_stroke := omega }
                else m
      if alpha < 0 ∧ omega < m1.peak_velocity_in_stroke * 0.9 then
        let m2 := { m1 with
                    current_phase := StrokePhase.recovery
                    last_stroke_end_time_us := now }
        let drive_duration_ms := u32ofInt (Int.tdiv (now - m2.last_stroke_start_time_us) 1000)
        let m3 := { m2 with drive_phase_duration_ms := drive_duration_ms }
        if drive_duration_ms ≥ MINIMUM_STROKE_DURATION_MS then
          let m4 := { m3 with stroke_count := m3.stroke_count + 1 }
          let m5 := stroke_detector_calculate_stroke_rate m4 now
          rowing_physics_calculate_distance cbrt m5 g.distance_calibration
        else m3
      else m1
  | StrokePhase.recovery =>
      if omega < g.recovery_velocity then
        { m with
          current_phase := StrokePhase.idle
          peak_velocity_in_stroke := 0
          recovery_phase_duration_ms :=
            u32ofInt (Int.tdiv (now - m.last_stroke_end_time_us) 1000) }
      else if alpha > g.drive_accel_threshold then
        { m with
          current_phase := StrokePhase.drive
          recovery_phase_duration_ms :=
            u32ofInt (Int.tdiv (now - m.last_stroke_end_time_us) 1000)
          last_stroke_start_time_us := now
          peak_velocity_in_stroke := omega
          drive_phase_work_joules := 0
          display_power_watts := 0 }
      else m

/-- stroke_detector_process_seat_trigger from stroke_detector.c. -/
def stroke_detector_process_seat_trigger (g : DetectorConfig) (m : RowingMetrics)
    (now : ℤ) : RowingMetrics :=
  let current_phase := m.current_phase
  let m1 :=
    if current_phase = StrokePhase.idle ∨ current_phase = StrokePhase.recovery then
      if m.angular_velocity_rad_s > g.recovery_velocity then
        let m2 := { m with current_phase := StrokePhase.drive }
        let m3 := if current_phase = StrokePhase.recovery then
                    { m2 with recovery_phase_duration_ms :=
                        u32ofInt (Int.tdiv (now - m2.last_stroke_end_time_us) 1000) }
                  else m2
        { m3 with
          last_stroke_start_time_us := now
          drive_phase_work_joules := 0 }
      else m
    else m
  { m1 with seat_trigger_count := m1.seat_trigger_count + 1 }

/-- The inter-pulse interval in seconds computed by
rowing_physics_process_flywheel_pulse: (t_us - t_prev_us) / 1e6. -/
def pulseDelta (m : RowingMetrics) (current_time_us : ℤ) : ℚ :=
  ((current_time_us - m.last_flywheel_time_us : ℤ) : ℚ) / 1000000

/-- The new angular velocity computed by
rowing_physics_process_flywheel_pulse when the interval is in range:
(TWO_PI / magnets) / delta. -/
def pulseOmega (m : RowingMetrics) (current_time_us : ℤ) : ℚ :=
  TWO_PI / (DEFAULT_MAGNETS_PER_REV : ℚ) / pulseDelta m current_time_us

/-- The new angular acceleration computed by
rowing_physics_process_flywheel_pulse: (omega_new - prev) / delta when
the stored previous velocity is positive, else 0. -/
def pulseAlpha (m : RowingMetrics) (current_time_us : ℤ) : ℚ :=
  if m.prev_angular_velocity_rad_s > 0 then
    (pulseOmega m current_time_us - m.prev_angular_velocity_rad_s)
      / pulseDelta m current_time_us
  else 0

/-- The pulse-count increment and kinematics fields written by
rowing_physics_process_flywheel_pulse on a valid pulse, before peak
tracking. -/
def pulseKinematics (m : RowingMetrics) (current_time_us : ℤ) : RowingMetrics :=
  { m with
    flywheel_pulse_count := m.flywheel_pulse_count + 1
    prev_angular_velocity_rad_s := m.angular_velocity_rad_s
    angular_velocity_rad_s := pulseOmega m current_time_us
    angular_acceleration_rad_s2 := pulseAlpha m current_time_us
    prev_flywheel_time_us := m.last_flywheel_time_us
    last_flywheel_time_us := current_time_us
    last_update_time_us := current_time_us }

/-- The peak-in-stroke tracking step of
rowing_physics_process_flywheel_pulse. -/
def pulsePeakTracked (m : RowingMetrics) (current_time_us : ℤ) : RowingMetrics :=
  if pulseOmega m current_time_us
      > (pulseKinematics m current_time_us).peak_velocity_in_stroke then
    { pulseKinematics m current_time_us with
      peak_velocity_in_stroke := pulseOmega m current_time_us }
  else pulseKinematics m current_time_us

/-- The valid_data marking step of rowing_physics_process_flywheel_pulse
(valid once at least two pulses were seen). -/
def pulseValidMarked (m : RowingMetrics) (current_time_us : ℤ) : RowingMetrics :=
  if ¬ ((pulsePeakTracked m current_time_us).valid_data = true) ∧
      (pulsePeakTracked m current_time_us).flywheel_pulse_count ≥ 2 then
    { pulsePeakTracked m current_time_us with valid_data := true }
  else pulsePeakTracked m current_time_us

/-- rowing_physics_process_flywheel_pulse from rowing_physics.c, with
the interval, velocity and acceleration expressions factored into
pulseDelta, pulseOmega and pulseAlpha, and the successive in-place
updates of the valid-pulse path factored into pulseKinematics,
pulsePeakTracked and pulseValidMarked.  The pulse timestamp
current_time_us also stands in for the second esp_timer_get_time() call
that stamps last_update_time_us. -/
def rowing_physics_process_flywheel_pulse (m : RowingMetrics) (current_time_us : ℤ) :
    RowingMetrics :=
  if m.last_flywheel_time_us = 0 then
    { m with
      flywheel_pulse_count := m.flywheel_pulse_count + 1
      last_flywheel_time_us := current_time_us }
  else
    if pulseDelta m current_time_us < 0.001 ∨ pulseDelta m current_time_us > 10 then
      { m with
        flywheel_pulse_count := m.flywheel_pulse_count + 1
        last_flywheel_time_us := current_time_us }
    else
      rowing_physics_calculate_power
        (if (pulseValidMarked m current_time_us).current_phase = StrokePhase.recovery ∧
            pulseAlpha m current_time_us < 0 then
          rowing_physics_calibrate_drag (pulseValidMarked m current_time_us)
            (pulseOmega m current_time_us) (pulseAlpha m current_time_us)
        else pulseValidMarked m current_time_us)

/-- The measured drag coefficient of one recovery pulse,
k_meas = -I * alpha / omega^2, as computed inside
rowing_physics_calibrate_drag for the values of the current pulse. -/
def kMeas (m : RowingMetrics) (t : ℤ) : ℚ :=
  -m.moment_of_inertia * pulseAlpha m t / (pulseOmega m t * pulseOmega m t)

/-- The exact condition under which a valid flywheel pulse contributes a
drag calibration sample: the detector phase is Recovery, the new
acceleration is negative (both checked by the caller in
rowing_physics_process_flywheel_pulse), the magnitude of the new
velocity is at least 1 rad/s, and the measured coefficient lies in
[0, 0.01] (checked inside rowing_physics_calibrate_drag). -/
def dragSampleAccepted (m : RowingMetrics) (t : ℤ) : Prop :=
  m.current_phase = StrokePhase.recovery ∧ pulseAlpha m t < 0 ∧
  1 ≤ |pulseOmega m t| ∧ 0 ≤ kMeas m t ∧ kMeas m t ≤ 0.01

instance (m : RowingMetrics) (t : ℤ) : Decidable (dragSampleAccepted m t) := by
  unfold dragSampleAccepted
  infer_instance

/-- The clamp of the instantaneous stroke rate in
stroke_detector_calculate_stroke_rate, exactly as the two ifs in the
source. -/
def clamp10_60 (x : ℚ) : ℚ :=
  let a := if x < 10 then 10 else x
  if a > 60 then 60 else a

/-- The phase transitions that a single stroke_detector_update step can
make: stay put, Idle to Drive, Drive to Recovery, or Recovery to Idle or
Drive. -/
def detectorTransitionAllowed (p p1 : StrokePhase) : Prop :=
  p1 = p ∨
  (p = StrokePhase.idle ∧ p1 = StrokePhase.drive) ∨
  (p = StrokePhase.drive ∧ p1 = StrokePhase.recovery) ∨
  (p = StrokePhase.recovery ∧ (p1 = StrokePhase.idle ∨ p1 = StrokePhase.drive))

/-- One iteration of the flywheel branch of sensor_processing_task in
sensor_manager.c: physics first, then stroke detection.  pulse_time is
the ISR timestamp g_last_flywheel_time_us, now the task-side
esp_timer_get_time() used by the detector. -/
def sensor_pulse_step (cbrt : ℚ → ℚ) (g : DetectorConfig) (m : RowingMetrics)
    (pulse_time now : ℤ) : RowingMetrics :=
  stroke_detector_update cbrt g (rowing_physics_process_flywheel_pulse m pulse_time) now

/-- The idle-timeout check at the end of each sensor_processing_task
iteration in sensor_manager.c.  last_flywheel_time_us and
flywheel_pulse_count are the ISR-owned globals g_last_flywheel_time_us
and g_flywheel_pulse_count. -/
def sensor_idle_check (m : RowingMetrics) (now last_flywheel_time_us : ℤ)
    (flywheel_pulse_count : ℕ) : RowingMetrics :=
  let time_since_last_pulse := now - last_flywheel_time_us
  if time_since_last_pulse > IDLE_TIMEOUT_MS * 1000 then
    if m.is_active = true then
      { m with is_active := false, current_phase := StrokePhase.idle }
    else m
  else if flywheel_pulse_count > 0 then
    if ¬ (m.is_active = true) then { m with is_active := true } else m
  else m

/-- Heart-rate receiver state from hr_receiver.c: current value, its
timestamp in milliseconds, the recording flag and the recorded samples. -/
structure HRState where
  current_hr : ℕ
  last_update_time_ms : ℤ
  recording : Bool
  samples : List (ℤ × ℕ)
deriving DecidableEq, Repr

def MAX_HR_SAMPLES : ℕ := 7200

/-- hr_receiver_update from hr_receiver.c.  The Bool result is true for
ESP_OK and false for ESP_ERR_INVALID_ARG.  now_ms stands for
get_time_ms(). -/
def hr_receiver_update (st : HRState) (bpm : ℕ) (now_ms : ℤ) : HRState × Bool :=
  if bpm = 0 ∨ bpm > 220 then (st, false)
  else
    let st1 := { st with current_hr := bpm, last_update_time_ms := now_ms }
    let st2 := if st1.recording = true ∧ st1.samples.length < MAX_HR_SAMPLES then
                 { st1 with samples := st1.samples ++ [(now_ms, bpm)] }
               else st1
    (st2, true)

/-- session_record_t from rowing_physics.h. -/
structure SessionRecord where
  session_id : ℕ
  start_timestamp : ℤ
  duration_seconds : ℕ
  total_distance_meters : ℚ
  average_pace_sec_500m : ℚ
  average_power_watts : ℚ
  stroke_count : ℕ
  total_calories : ℕ
  drag_factor : ℚ
  average_heart_rate : ℚ
  average_stroke_rate : ℚ
  sample_count : ℕ
  max_heart_rate : ℕ
  synced : Bool

/-- The module-level session state of session_manager.c. -/
structure SessionState where
  current_session_id : ℕ
  session_start_time : ℤ
  session_start_unix_ms : ℤ
  session_count : ℕ
  stroke_count_at_resume : ℕ
  sample_count : ℕ
  last_distance : ℚ
  heart_rate_sum : ℕ
  heart_rate_count : ℕ
  max_heart_rate : ℕ
  stroke_rate_sum : ℚ
  stroke_rate_samples : ℕ

/-- Outcome of session_manager_end_session: ESP_ERR_INVALID_STATE when no
session is active, ESP_OK without a persisted record (session too
short), or ESP_OK with the record written to NVS. -/
inductive EndSessionOutcome
  | invalid_state
  | discarded
  | saved (record : SessionRecord)

/-- session_manager_end_session from session_manager.c, with the NVS
writes assumed to succeed (storage is out of scope).  Returns the new
module state, the new metrics and the outcome. -/
def session_manager_end_session (s : SessionState) (m : RowingMetrics) :
    SessionState × RowingMetrics × EndSessionOutcome :=
  if s.current_session_id = 0 then (s, m, EndSessionOutcome.invalid_state)
  else if m.stroke_count < 5 ∨ m.total_distance_meters < 10 then
    ({ s with current_session_id := 0 }, m, EndSessionOutcome.discarded)
  else
    let record : SessionRecord :=
      { session_id := s.current_session_id
        start_timestamp := if s.session_start_unix_ms > 0 then s.session_start_unix_ms
                           else Int.tdiv s.session_start_time 1000
        duration_seconds := m.elapsed_time_ms / 1000
        total_distance_meters := m.total_distance_meters
        average_pace_sec_500m := m.average_pace_sec_500m
        average_power_watts := m.average_power_watts
        stroke_count := m.stroke_count
        total_calories := m.total_calories
        drag_factor := m.drag_factor
        sample_count := s.sample_count
        max_heart_rate := s.max_heart_rate
        synced := false
        average_heart_rate := if s.heart_rate_count > 0 then
                                (s.heart_rate_sum : ℚ) / (s.heart_rate_count : ℚ)
                              else 0
        average_stroke_rate := if s.stroke_rate_samples > 0 then
                                 s.stroke_rate_sum / (s.stroke_rate_samples : ℚ)
                               else m.avg_stroke_rate_spm }
    ({ s with session_count := s.current_session_id, current_session_id := 0 },
     { m with session_start_time_us := 0, elapsed_time_ms := 0 },
     EndSessionOutcome.saved record)

/-- workout_stop_handler from web_server.c: clear any paused state
(accumulating the pause duration), then end the session.  The HTTP
response body and the HR-recording stop are out of scope. -/
def workout_stop_handler (s : SessionState) (m : RowingMetrics) (now : ℤ) :
    SessionState × RowingMetrics × EndSessionOutcome :=
  let m1 :=
    if m.is_paused = true then
      let paused_duration_us := now - m.pause_start_time_us
      let m2 := if paused_duration_us > 0 then
                  { m with total_paused_time_ms :=
                      m.total_paused_time_ms + u32ofInt (Int.tdiv paused_duration_us 1000) }
                else m
      { m2 with is_paused := false, pause_start_time_us := 0 }
    else m
  session_manager_end_session s m1

/-- FTMS Rower Data flag bits from ble_ftms_server.c. -/
def ROWER_TOTAL_DISTANCE_FLAG : ℕ := 4

def ROWER_INST_PACE_FLAG : ℕ := 8

def ROWER_AVG_PACE_FLAG : ℕ := 16

def ROWER_INST_POWER_FLAG : ℕ := 32

def ROWER_AVG_POWER_FLAG : ℕ := 64

def ROWER_EXPENDED_ENERGY_FLAG : ℕ := 256

def ROWER_ELAPSED_TIME_FLAG : ℕ := 2048

/-- The flags word set by build_rower_data_packet. -/
def rowerDataFlags : ℕ :=
  ROWER_TOTAL_DISTANCE_FLAG |||
  ROWER_INST_PACE_FLAG |||
  ROWER_AVG_PACE_FLAG |||
  ROWER_INST_POWER_FLAG |||
  ROWER_AVG_POWER_FLAG |||
  ROWER_EXPENDED_ENERGY_FLAG |||
  ROWER_ELAPSED_TIME_FLAG

/-- build_rower_data_packet from ble_ftms_server.c, as the list of bytes
written into the packet buffer, in order.  Casts of float values to
C integer types are truncation toward zero followed by reduction mod the
target width; byte extraction is as in the source. -/
def build_rower_data_packet (m : RowingMetrics) : List ℕ :=
  let flags := rowerDataFlags
  let stroke_rate := (Int.emod (ratTrunc (m.stroke_rate_spm * 2)) 256).toNat
  let stroke_count := m.stroke_count % 65536
  let distance := (Int.emod (ratTrunc m.total_distance_meters) 4294967296).toNat
  let pace0 := (Int.emod (ratTrunc m.instantaneous_pace_sec_500m) 65536).toNat
  let pace := if pace0 > 9999 then 0 else pace0
  let avg_pace0 := (Int.emod (ratTrunc m.average_pace_sec_500m) 65536).toNat
  let avg_pace := if avg_pace0 > 9999 then 0 else avg_pace0
  let power := (Int.emod (ratTrunc m.instantaneous_power_watts) 65536).toNat
  let avg_power := (Int.emod (ratTrunc m.average_power_watts) 65536).toNat
  let energy := m.total_calories % 65536
  let energy_per_hour := (Int.emod (ratTrunc m.calories_per_hour) 65536).toNat
  let energy_per_min := (Int.emod (ratTrunc (m.calories_per_hour / 60)) 256).toNat
  let elapsed_s := (m.elapsed_time_ms / 1000) % 65536
  [ flags % 256, (flags / 256) % 256,
    stroke_rate,
    stroke_count % 256, (stroke_count / 256) % 256,
    distance % 256, (distance / 256) % 256, (distance / 65536) % 256,
    pace % 256, (pace / 256) % 256,
    avg_pace % 256, (avg_pace / 256) % 256,
    power % 256, (power / 256) % 256,
    avg_power % 256, (avg_power / 256) % 256,
    energy % 256, (energy / 256) % 256,
    energy_per_hour % 256, (energy_per_hour / 256) % 256,
    energy_per_min,
    elapsed_s % 256, (elapsed_s / 256) % 256 ]

/-!
Concrete input states used by the witness and counterexample theorems
below.
-/

/-- A concrete paused metrics state. -/
def pausedSample : RowingMetrics :=
  { zeroMetrics with
    is_paused := true
    elapsed_time_ms := 42
    session_start_time_us := 1000000 }

/-- A session-manager state with an active session (id 7). -/
def discardSessionState : SessionState :=
  { current_session_id := 7
    session_start_time := 2000000
    session_start_unix_ms := 0
    session_count := 6
    stroke_count_at_resume := 0
    sample_count := 3
    last_distance := 0
    heart_rate_sum := 0
    heart_rate_count := 0
    max_heart_rate := 0
    stroke_rate_sum := 0
    stroke_rate_samples := 0 }

/-- Metrics of a short workout: 3 strokes and 5 m, below both save
thresholds, with a running timer. -/
def discardMetrics : RowingMetrics :=
  { zeroMetrics with
    stroke_count := 3
    total_distance_meters := 5
    session_start_time_us := 1000000
    elapsed_time_ms := 30000 }

/-- Metrics of a workout above both save thresholds. -/
def savedMetrics : RowingMetrics :=
  { zeroMetrics with
    stroke_count := 12
    total_distance_meters := 95
    session_start_time_us := 1000000
    elapsed_time_ms := 60000 }

/-- Metrics just after the first completed stroke (stroke_count = 1)
with a previous smoothed rate of 25 spm and a 2 s stroke cycle. -/
def firstStrokeMetrics : RowingMetrics :=
  { zeroMetrics with
    stroke_count := 1
    stroke_rate_spm := 25
    drive_phase_duration_ms := 800
    recovery_phase_duration_ms := 1200 }

/-- Metrics just after the second completed stroke with the same rate
state as firstStrokeMetrics. -/
def secondStrokeMetrics : RowingMetrics :=
  { zeroMetrics with
    stroke_count := 2
    stroke_rate_spm := 25
    drive_phase_duration_ms := 800
    recovery_phase_duration_ms := 1200 }

/-- Metrics whose previous flywheel pulse was at 600000 us, so a pulse
at 800000 us gives an in-range 0.2 s interval. -/
def inRangeMetrics : RowingMetrics :=
  { zeroMetrics with
    last_flywheel_time_us := 600000
    prev_angular_velocity_rad_s := 20
    angular_velocity_rad_s := 5
    flywheel_pulse_count := 5 }

/-- Metrics whose previous flywheel pulse was at 1000 us, so a pulse at
51001000 us gives an out-of-range 51 s interval. -/
def outOfRangeMetrics : RowingMetrics :=
  { zeroMetrics with
    last_flywheel_time_us := 1000
    flywheel_pulse_count := 3
    angular_velocity_rad_s := 12 }

/-- A recovery-phase state for which the pulse at 200000 us yields a
gentle deceleration whose measured drag coefficient is accepted. -/
def recoverySample : RowingMetrics :=
  { zeroMetrics with
    current_phase := StrokePhase.recovery
    last_flywheel_time_us := 100000
    prev_angular_velocity_rad_s := 16
    moment_of_inertia := 0.101
    drag_coefficient := 0.0001 }

/-- A drive-phase state about to transition to recovery at 700000 us
with 22.4 J of accumulated drive work. -/
def finishingDriveMetrics : RowingMetrics :=
  { zeroMetrics with
    current_phase := StrokePhase.drive
    angular_velocity_rad_s := 10
    angular_acceleration_rad_s2 := -5
    peak_velocity_in_stroke := 20
    last_stroke_start_time_us := 0
    drive_phase_work_joules := 22.4
    total_distance_meters := 7 }

/-- A drive-phase state in which the decelerating pulse at 800000 us
ends an 800 ms drive during which no work was accumulated. -/
def zeroWorkDriveMetrics : RowingMetrics :=
  { zeroMetrics with
    current_phase := StrokePhase.drive
    last_flywheel_time_us := 600000
    prev_angular_velocity_rad_s := 20
    angular_velocity_rad_s := 20
    peak_velocity_in_stroke := 30
    moment_of_inertia := 0.101
    drag_coefficient := 0.0001
    last_stroke_start_time_us := 0
    flywheel_pulse_count := 5
    valid_data := true }

/-- A drive-phase state that is active but has seen no pulse since
time 0. -/
def staleDriveMetrics : RowingMetrics :=
  { zeroMetrics with
    current_phase := StrokePhase.drive
    is_active := true }

/-!
Helper lemmas: fields that the individual update functions leave
untouched.  These are shared by several of the claim theorems below.
-/

theorem calculate_pace_preserves (m : RowingMetrics) :
    (rowing_physics_calculate_pace m).current_phase = m.current_phase ∧
    (rowing_physics_calculate_pace m).total_distance_meters = m.total_distance_meters ∧
    (rowing_physics_calculate_pace m).distance_per_stroke_meters = m.distance_per_stroke_meters ∧
    (rowing_physics_calculate_pace m).drive_phase_work_joules = m.drive_phase_work_joules ∧
    (rowing_physics_calculate_pace m).stroke_count = m.stroke_count ∧
    (rowing_physics_calculate_pace m).calibration_complete = m.calibration_complete ∧
    (rowing_physics_calculate_pace m).drive_phase_duration_ms = m.drive_phase_duration_ms := by
  simp only [rowing_physics_calculate_pace]
  split_ifs <;> exact ⟨rfl, rfl, rfl, rfl, rfl, rfl, rfl⟩

theorem calculate_distance_preserves (cbrt : ℚ → ℚ) (m : RowingMetrics) (f : ℚ) :
    (rowing_physics_calculate_distance cbrt m f).current_phase = m.current_phase ∧
    (rowing_physics_calculate_distance cbrt m f).stroke_count = m.stroke_count ∧
    (rowing_physics_calculate_distance cbrt m f).calibration_complete = m.calibration_complete ∧
    (rowing_physics_calculate_distance cbrt m f).drive_phase_duration_ms
      = m.drive_phase_duration_ms := by
  simp only [rowing_physics_calculate_distance]
  refine ⟨?_, ?_, ?_, ?_⟩
  · exact (calculate_pace_preserves _).1
  · exact (calculate_pace_preserves _).2.2.2.2.1
  · exact (calculate_pace_preserves _).2.2.2.2.2.1
  · exact (calculate_pace_preserves _).2.2.2.2.2.2

theorem calculate_stroke_rate_preserves (m : RowingMetrics) (now : ℤ) :
    (stroke_detector_calculate_stroke_rate m now).current_phase = m.current_phase ∧
    (stroke_detector_calculate_stroke_rate m now).total_distance_meters
      = m.total_distance_meters ∧
    (stroke_detector_calculate_stroke_rate m now).distance_per_stroke_meters
      = m.distance_per_stroke_meters ∧
    (stroke_detector_calculate_stroke_rate m now).drive_phase_work_joules
      = m.drive_phase_work_joules ∧
    (stroke_detector_calculate_stroke_rate m now).stroke_count = m.stroke_count ∧
    (stroke_detector_calculate_stroke_rate m now).calibration_complete
      = m.calibration_complete ∧
    (stroke_detector_calculate_stroke_rate m now).drive_phase_duration_ms
      = m.drive_phase_duration_ms ∧
    (stroke_detector_calculate_stroke_rate m now).last_stroke_start_time_us
      = m.last_stroke_start_time_us ∧
    (stroke_detector_calculate_stroke_rate m now).last_stroke_end_time_us
      = m.last_stroke_end_time_us := by
  simp only [stroke_detector_calculate_stroke_rate]
  split_ifs <;> exact ⟨rfl, rfl, rfl, rfl, rfl, rfl, rfl, rfl, rfl⟩

theorem calculate_power_preserves (m : RowingMetrics) :
    (rowing_physics_calculate_power m).current_phase = m.current_phase ∧
    (rowing_physics_calculate_power m).angular_velocity_rad_s = m.angular_velocity_rad_s ∧
    (rowing_physics_calculate_power m).angular_acceleration_rad_s2
      = m.angular_acceleration_rad_s2 ∧
    (rowing_physics_calculate_power m).drag_coefficient = m.drag_coefficient ∧
    (rowing_physics_calculate_power m).drag_calibration_samples
      = m.drag_calibration_samples ∧
    (rowing_physics_calculate_power m).calibration_complete = m.calibration_complete ∧
    (rowing_physics_calculate_power m).last_flywheel_time_us = m.last_flywheel_time_us ∧
    (rowing_physics_calculate_power m).prev_flywheel_time_us = m.prev_flywheel_time_us ∧
    (rowing_physics_calculate_power m).flywheel_pulse_count = m.flywheel_pulse_count := by
  simp only [rowing_physics_calculate_power]
  split_ifs <;> exact ⟨rfl, rfl, rfl, rfl, rfl, rfl, rfl, rfl, rfl⟩

theorem calibrate_drag_preserves (m : RowingMetrics) (omega alpha : ℚ) :
    (rowing_physics_calibrate_drag m omega alpha).current_phase = m.current_phase ∧
    (rowing_physics_calibrate_drag m omega alpha).angular_velocity_rad_s
      = m.angular_velocity_rad_s ∧
    (rowing_physics_calibrate_drag m omega alpha).angular_acceleration_rad_s2
      = m.angular_acceleration_rad_s2 ∧
    (rowing_physics_calibrate_drag m omega alpha).last_flywheel_time_us
      = m.last_flywheel_time_us ∧
    (rowing_physics_calibrate_drag m omega alpha).prev_flywheel_time_us
      = m.prev_flywheel_time_us ∧
    (rowing_physics_calibrate_drag m omega alpha).flywheel_pulse_count
      = m.flywheel_pulse_count := by
  simp only [rowing_physics_calibrate_drag]
  split_ifs <;> exact ⟨rfl, rfl, rfl, rfl, rfl, rfl⟩

theorem calculate_power_phase (m : RowingMetrics) :
    (rowing_physics_calculate_power m).current_phase = m.current_phase :=
  (calculate_power_preserves m).1

theorem calculate_power_omega (m : RowingMetrics) :
    (rowing_physics_calculate_power m).angular_velocity_rad_s = m.angular_velocity_rad_s :=
  (calculate_power_preserves m).2.1

theorem calculate_power_alpha (m : RowingMetrics) :
    (rowing_physics_calculate_power m).angular_acceleration_rad_s2
      = m.angular_acceleration_rad_s2 :=
  (calculate_power_preserves m).2.2.1

theorem calculate_power_k (m : RowingMetrics) :
    (rowing_physics_calculate_power m).drag_coefficient = m.drag_coefficient :=
  (calculate_power_preserves m).2.2.2.1

theorem calculate_power_samples (m : RowingMetrics) :
    (rowing_physics_calculate_power m).drag_calibration_samples
      = m.drag_calibration_samples :=
  (calculate_power_preserves m).2.2.2.2.1

theorem calculate_power_complete (m : RowingMetrics) :
    (rowing_physics_calculate_power m).calibration_complete = m.calibration_complete :=
  (calculate_power_preserves m).2.2.2.2.2.1

theorem calibrate_drag_phase (m : RowingMetrics) (omega alpha : ℚ) :
    (rowing_physics_calibrate_drag m omega alpha).current_phase = m.current_phase :=
  (calibrate_drag_preserves m omega alpha).1

theorem calibrate_drag_omega (m : RowingMetrics) (omega alpha : ℚ) :
    (rowing_physics_calibrate_drag m omega alpha).angular_velocity_rad_s
      = m.angular_velocity_rad_s :=
  (calibrate_drag_preserves m omega alpha).2.1

theorem calibrate_drag_alpha (m : RowingMetrics) (omega alpha : ℚ) :
    (rowing_physics_calibrate_drag m omega alpha).angular_acceleration_rad_s2
      = m.angular_acceleration_rad_s2 :=
  (calibrate_drag_preserves m omega alpha).2.2.1

theorem calculate_pace_phase (m : RowingMetrics) :
    (rowing_physics_calculate_pace m).current_phase = m.current_phase :=
  (calculate_pace_preserves m).1

theorem calculate_distance_phase (cbrt : ℚ → ℚ) (m : RowingMetrics) (f : ℚ) :
    (rowing_physics_calculate_distance cbrt m f).current_phase = m.current_phase :=
  (calculate_distance_preserves cbrt m f).1

theorem calculate_stroke_rate_phase (m : RowingMetrics) (now : ℤ) :
    (stroke_detector_calculate_stroke_rate m now).current_phase = m.current_phase :=
  (calculate_stroke_rate_preserves m now).1

theorem calculate_distance_complete (cbrt : ℚ → ℚ) (m : RowingMetrics) (f : ℚ) :
    (rowing_physics_calculate_distance cbrt m f).calibration_complete
      = m.calibration_complete :=
  (calculate_distance_preserves cbrt m f).2.2.1

theorem calculate_stroke_rate_complete (m : RowingMetrics) (now : ℤ) :
    (stroke_detector_calculate_stroke_rate m now).calibration_complete
      = m.calibration_complete :=
  (calculate_stroke_rate_preserves m now).2.2.2.2.2.1

theorem pulsePeakTracked_preserves (m : RowingMetrics) (t : ℤ) :
    (pulsePeakTracked m t).current_phase = m.current_phase ∧
    (pulsePeakTracked m t).angular_velocity_rad_s = pulseOmega m t ∧
    (pulsePeakTracked m t).angular_acceleration_rad_s2 = pulseAlpha m t ∧
    (pulsePeakTracked m t).drag_coefficient = m.drag_coefficient ∧
    (pulsePeakTracked m t).drag_calibration_samples = m.drag_calibration_samples ∧
    (pulsePeakTracked m t).calibration_complete = m.calibration_complete ∧
    (pulsePeakTracked m t).moment_of_inertia = m.moment_of_inertia := by
  simp only [pulsePeakTracked]
  split_ifs <;> exact ⟨rfl, rfl, rfl, rfl, rfl, rfl, rfl⟩

theorem pulseValidMarked_phase (m : RowingMetrics) (t : ℤ) :
    (pulseValidMarked m t).current_phase = m.current_phase := by
  simp only [pulseValidMarked]
  split_ifs <;> simp [(pulsePeakTracked_preserves m t).1]

theorem pulseValidMarked_omega (m : RowingMetrics) (t : ℤ) :
    (pulseValidMarked m t).angular_velocity_rad_s = pulseOmega m t := by
  simp only [pulseValidMarked]
  split_ifs <;> simp [(pulsePeakTracked_preserves m t).2.1]

theorem pulseValidMarked_alpha (m : RowingMetrics) (t : ℤ) :
    (pulseValidMarked m t).angular_acceleration_rad_s2 = pulseAlpha m t := by
  simp only [pulseValidMarked]
  split_ifs <;> simp [(pulsePeakTracked_preserves m t).2.2.1]

theorem pulseValidMarked_k (m : RowingMetrics) (t : ℤ) :
    (pulseValidMarked m t).drag_coefficient = m.drag_coefficient := by
  simp only [pulseValidMarked]
  split_ifs <;> simp [(pulsePeakTracked_preserves m t).2.2.2.1]

theorem pulseValidMarked_samples (m : RowingMetrics) (t : ℤ) :
    (pulseValidMarked m t).drag_calibration_samples = m.drag_calibration_samples := by
  simp only [pulseValidMarked]
  split_ifs <;> simp [(pulsePeakTracked_preserves m t).2.2.2.2.1]

theorem pulseValidMarked_complete (m : RowingMetrics) (t : ℤ) :
    (pulseValidMarked m t).calibration_complete = m.calibration_complete := by
  simp only [pulseValidMarked]
  split_ifs <;> simp [(pulsePeakTracked_preserves m t).2.2.2.2.2.1]

theorem pulseValidMarked_moi (m : RowingMetrics) (t : ℤ) :
    (pulseValidMarked m t).moment_of_inertia = m.moment_of_inertia := by
  simp only [pulseValidMarked]
  split_ifs <;> simp [(pulsePeakTracked_preserves m t).2.2.2.2.2.2]

theorem process_flywheel_pulse_phase (m : RowingMetrics) (t : ℤ) :
    (rowing_physics_process_flywheel_pulse m t).current_phase = m.current_phase := by
  simp only [rowing_physics_process_flywheel_pulse]
  split_ifs <;>
    simp [calculate_power_phase, calibrate_drag_phase, pulseValidMarked_phase]

theorem detector_update_complete (cbrt : ℚ → ℚ) (g : DetectorConfig) (m : RowingMetrics)
    (now : ℤ) :
    (stroke_detector_update cbrt g m now).calibration_complete = m.calibration_complete := by
  cases hm : m.current_phase <;>
    simp only [stroke_detector_update, hm] <;>
    split_ifs <;>
    simp [calculate_distance_complete, calculate_stroke_rate_complete]

theorem seat_trigger_complete (g : DetectorConfig) (m : RowingMetrics) (now : ℤ) :
    (stroke_detector_process_seat_trigger g m now).calibration_complete
      = m.calibration_complete := by
  simp only [stroke_detector_process_seat_trigger]
  split_ifs <;> rfl

/-!
Claim C7.  While is_paused is true, the elapsed-time update is a no-op.
The source function returns immediately when metrics->is_paused, so the
whole metrics state, and in particular elapsed_time_ms, is unchanged;
hence any two snapshots taken during one continuous paused interval read
the same elapsed_time_ms.
-/

/-- C7: while is_paused is true, rowing_physics_update_elapsed_time
leaves the metrics unchanged, so elapsed_time_ms never advances between
snapshots taken during one continuous paused interval, however far
apart. -/
theorem claim7_paused_elapsed_frozen (m : RowingMetrics) (now1 now2 : ℤ)
    (h : m.is_paused = true) :
    rowing_physics_update_elapsed_time m now1 = m ∧
    (rowing_physics_update_elapsed_time
        (rowing_physics_update_elapsed_time m now1) now2).elapsed_time_ms
      = m.elapsed_time_ms := by
  have h1 : rowing_physics_update_elapsed_time m now1 = m := by
    simp [rowing_physics_update_elapsed_time, h]
  refine ⟨h1, ?_⟩
  rw [h1]
  simp [rowing_physics_update_elapsed_time, h]

/-- C7 witness: a concrete paused state where an update four seconds
later leaves the whole state, and so elapsed_time_ms, unchanged. -/
theorem claim7_paused_elapsed_frozen_witness :
    rowing_physics_update_elapsed_time pausedSample 5000000 = pausedSample :=
  (claim7_paused_elapsed_frozen pausedSample 5000000 6000000 rfl).1

/-!
Claim C10.  After metrics_calculator_reset (which delegates to
rowing_physics_reset) the state is paused with the timer cleared and not
advancing, the calibration data is preserved, and everything else is
zeroed, with phase Idle and the 999999 best-pace sentinel.
-/

/-- C10: after a metrics reset the state is paused with
session_start_time_us = 0 and elapsed_time_ms = 0, the timer stays at 0
under further elapsed-time updates, moment_of_inertia, drag_coefficient
and calibration_complete keep their pre-reset values, and the remaining
fields are zeroed with phase Idle and best pace at the 999999 sentinel. -/
theorem claim10_reset_state (m : RowingMetrics) :
    (metrics_calculator_reset m).is_paused = true ∧
    (metrics_calculator_reset m).session_start_time_us = 0 ∧
    (metrics_calculator_reset m).elapsed_time_ms = 0 ∧
    (∀ now : ℤ, (rowing_physics_update_elapsed_time
        (metrics_calculator_reset m) now).elapsed_time_ms = 0) ∧
    (metrics_calculator_reset m).moment_of_inertia = m.moment_of_inertia ∧
    (metrics_calculator_reset m).drag_coefficient = m.drag_coefficient ∧
    (metrics_calculator_reset m).calibration_complete = m.calibration_complete ∧
    (metrics_calculator_reset m).current_phase = StrokePhase.idle ∧
    (metrics_calculator_reset m).best_pace_sec_500m = 999999 ∧
    (metrics_calculator_reset m).stroke_count = 0 ∧
    (metrics_calculator_reset m).total_distance_meters = 0 ∧
    (metrics_calculator_reset m).total_work_joules = 0 ∧
    (metrics_calculator_reset m).drive_phase_work_joules = 0 ∧
    (metrics_calculator_reset m).drag_factor = 0 ∧
    (metrics_calculator_reset m).drag_calibration_samples = 0 ∧
    (metrics_calculator_reset m).stroke_rate_spm = 0 ∧
    (metrics_calculator_reset m).avg_stroke_rate_spm = 0 ∧
    (metrics_calculator_reset m).instantaneous_power_watts = 0 ∧
    (metrics_calculator_reset m).average_power_watts = 0 ∧
    (metrics_calculator_reset m).peak_power_watts = 0 ∧
    (metrics_calculator_reset m).display_power_watts = 0 ∧
    (metrics_calculator_reset m).total_calories = 0 ∧
    (metrics_calculator_reset m).calories_per_hour = 0 ∧
    (metrics_calculator_reset m).distance_per_stroke_meters = 0 ∧
    (metrics_calculator_reset m).instantaneous_pace_sec_500m = 0 ∧
    (metrics_calculator_reset m).is_active = false ∧
    (metrics_calculator_reset m).valid_data = false ∧
    (metrics_calculator_reset m).total_paused_time_ms = 0 ∧
    (metrics_calculator_reset m).pause_start_time_us = 0 ∧
    (metrics_calculator_reset m).flywheel_pulse_count = 0 ∧
    (metrics_calculator_reset m).seat_trigger_count = 0 := by
  refine ⟨rfl, rfl, rfl, ?_, rfl, rfl, rfl, rfl, rfl, rfl, rfl, rfl, rfl, rfl, rfl, rfl,
    rfl, rfl, rfl, rfl, rfl, rfl, rfl, rfl, rfl, rfl, rfl, rfl, rfl, rfl, rfl⟩
  intro now
  simp [rowing_physics_update_elapsed_time, metrics_calculator_reset,
    rowing_physics_reset, zeroMetrics]

/-!
Claim C8.  The FTMS Rower Data notification packet is always exactly 23
bytes, and its first two bytes, read little-endian, are the constant
flags word.
-/

/-- C8: for every metrics value the built Rower Data packet has exactly
23 bytes and bytes 0..1 read as a little-endian u16 equal the constant
flags word TotalDistance, InstPace, AvgPace, InstPower, AvgPower,
ExpendedEnergy and ElapsedTime ored together. -/
theorem claim8_packet_length_flags (m : RowingMetrics) :
    (build_rower_data_packet m).length = 23 ∧
    (build_rower_data_packet m).getD 0 0 = 124 ∧
    (build_rower_data_packet m).getD 1 0 = 9 ∧
    124 + 256 * 9 = rowerDataFlags ∧
    rowerDataFlags = ROWER_TOTAL_DISTANCE_FLAG ||| ROWER_INST_PACE_FLAG |||
      ROWER_AVG_PACE_FLAG ||| ROWER_INST_POWER_FLAG ||| ROWER_AVG_POWER_FLAG |||
      ROWER_EXPENDED_ENERGY_FLAG ||| ROWER_ELAPSED_TIME_FLAG :=
  ⟨rfl, rfl, rfl, by decide, rfl⟩

/-!
Claim C4.  The claim states that the HR ingest update succeeds exactly
for bpm in [30, 220].  The source guard in hr_receiver_update is
(bpm == 0 || bpm > 220), so every bpm in [1, 29] is accepted as well:
the claim fails at bpm = 20.  The nearby true statement replaces the
lower bound 30 by 1.
-/

/-- C4 counterexample: bpm = 20 is outside [30, 220], yet
hr_receiver_update accepts it, records it and reports success, while the
claim requires the update to fail and the state to be unchanged. -/
theorem claim4_counterexample :
    (hr_receiver_update ⟨0, 0, false, []⟩ 20 1000).2 = true ∧
    (hr_receiver_update ⟨0, 0, false, []⟩ 20 1000).1.current_hr = 20 ∧
    (hr_receiver_update ⟨0, 0, false, []⟩ 20 1000).1.last_update_time_ms = 1000 ∧
    ¬ (30 ≤ 20 ∧ 20 ≤ 220) := by
  refine ⟨rfl, rfl, rfl, by decide⟩

/-- C4 amended: the HR ingest update succeeds, recording the value and
its timestamp, exactly when bpm is in [1, 220]; for any bpm outside that
range the update fails and the stored state is unchanged. -/
theorem claim4_amended_hr_update (st : HRState) (bpm : ℕ) (now_ms : ℤ) :
    ((hr_receiver_update st bpm now_ms).2 = true ↔ 1 ≤ bpm ∧ bpm ≤ 220) ∧
    (1 ≤ bpm ∧ bpm ≤ 220 →
      (hr_receiver_update st bpm now_ms).1.current_hr = bpm ∧
      (hr_receiver_update st bpm now_ms).1.last_update_time_ms = now_ms) ∧
    (¬ (1 ≤ bpm ∧ bpm ≤ 220) → (hr_receiver_update st bpm now_ms).1 = st) := by
  by_cases h : bpm = 0 ∨ bpm > 220
  · have h2 : ¬ (1 ≤ bpm ∧ bpm ≤ 220) := by omega
    simp [hr_receiver_update, if_pos h, h2]
  · have h2 : 1 ≤ bpm ∧ bpm ≤ 220 := by omega
    simp only [hr_receiver_update, if_neg h]
    split_ifs <;> simp [h2]

/-- C4 witness: a concrete accepted update, derived from the amended
theorem at bpm = 100. -/
theorem claim4_amended_hr_update_witness :
    (hr_receiver_update ⟨0, 0, false, []⟩ 100 42).1.current_hr = 100 :=
  ((claim4_amended_hr_update ⟨0, 0, false, []⟩ 100 42).2.1 (by decide)).1

/-!
Further projection lemmas used by the remaining claims.
-/

theorem calculate_pace_total (m : RowingMetrics) :
    (rowing_physics_calculate_pace m).total_distance_meters = m.total_distance_meters :=
  (calculate_pace_preserves m).2.1

theorem calculate_pace_dps (m : RowingMetrics) :
    (rowing_physics_calculate_pace m).distance_per_stroke_meters
      = m.distance_per_stroke_meters :=
  (calculate_pace_preserves m).2.2.1

theorem calculate_pace_work (m : RowingMetrics) :
    (rowing_physics_calculate_pace m).drive_phase_work_joules = m.drive_phase_work_joules :=
  (calculate_pace_preserves m).2.2.2.1

theorem calculate_pace_count (m : RowingMetrics) :
    (rowing_physics_calculate_pace m).stroke_count = m.stroke_count :=
  (calculate_pace_preserves m).2.2.2.2.1

theorem calculate_pace_duration (m : RowingMetrics) :
    (rowing_physics_calculate_pace m).drive_phase_duration_ms = m.drive_phase_duration_ms :=
  (calculate_pace_preserves m).2.2.2.2.2.2

theorem calculate_stroke_rate_total (m : RowingMetrics) (now : ℤ) :
    (stroke_detector_calculate_stroke_rate m now).total_distance_meters
      = m.total_distance_meters :=
  (calculate_stroke_rate_preserves m now).2.1

theorem calculate_stroke_rate_dps (m : RowingMetrics) (now : ℤ) :
    (stroke_detector_calculate_stroke_rate m now).distance_per_stroke_meters
      = m.distance_per_stroke_meters :=
  (calculate_stroke_rate_preserves m now).2.2.1

theorem calculate_stroke_rate_work (m : RowingMetrics) (now : ℤ) :
    (stroke_detector_calculate_stroke_rate m now).drive_phase_work_joules
      = m.drive_phase_work_joules :=
  (calculate_stroke_rate_preserves m now).2.2.2.1

theorem calculate_stroke_rate_count (m : RowingMetrics) (now : ℤ) :
    (stroke_detector_calculate_stroke_rate m now).stroke_count = m.stroke_count :=
  (calculate_stroke_rate_preserves m now).2.2.2.2.1

theorem calculate_stroke_rate_duration (m : RowingMetrics) (now : ℤ) :
    (stroke_detector_calculate_stroke_rate m now).drive_phase_duration_ms
      = m.drive_phase_duration_ms :=
  (calculate_stroke_rate_preserves m now).2.2.2.2.2.2.1

theorem clamp2_20_bounds (x : ℚ) : 2 ≤ clamp2_20 x ∧ clamp2_20 x ≤ 20 := by
  simp only [clamp2_20]
  split_ifs <;> constructor <;> linarith

/-- Field formulas of rowing_physics_calibrate_drag: the sample count,
the coefficient and the completion flag, as functions of the acceptance
condition checked inside the function. -/
theorem calibrate_drag_fields (m : RowingMetrics) (omega alpha : ℚ) :
    (rowing_physics_calibrate_drag m omega alpha).drag_calibration_samples
        = (if 1 ≤ |omega| ∧ 0 ≤ -m.moment_of_inertia * alpha / (omega * omega) ∧
              -m.moment_of_inertia * alpha / (omega * omega) ≤ 0.01 then
             m.drag_calibration_samples + 1
           else m.drag_calibration_samples) ∧
    (rowing_physics_calibrate_drag m omega alpha).drag_coefficient
        = (if 1 ≤ |omega| ∧ 0 ≤ -m.moment_of_inertia * alpha / (omega * omega) ∧
              -m.moment_of_inertia * alpha / (omega * omega) ≤ 0.01 then
             (if m.drag_calibration_samples = 0 then
                -m.moment_of_inertia * alpha / (omega * omega)
              else 0.95 * m.drag_coefficient +
                0.05 * (-m.moment_of_inertia * alpha / (omega * omega)))
           else m.drag_coefficient) ∧
    ((rowing_physics_calibrate_drag m omega alpha).calibration_complete = true ↔
        (m.calibration_complete = true ∨
          ((1 ≤ |omega| ∧ 0 ≤ -m.moment_of_inertia * alpha / (omega * omega) ∧
              -m.moment_of_inertia * alpha / (omega * omega) ≤ 0.01) ∧
            50 ≤ m.drag_calibration_samples + 1))) := by
  by_cases hA : 1 ≤ |omega| ∧ 0 ≤ -m.moment_of_inertia * alpha / (omega * omega) ∧
      -m.moment_of_inertia * alpha / (omega * omega) ≤ 0.01
  · have hw : ¬ (|omega| < 1) := not_lt.mpr hA.1
    have hk : ¬ (-m.moment_of_inertia * alpha / (omega * omega) < 0 ∨
        -m.moment_of_inertia * alpha / (omega * omega) > 0.01) := by
      push_neg
      exact ⟨hA.2.1, hA.2.2⟩
    refine ⟨?_, ?_, ?_⟩
    · rw [if_pos hA]
      simp only [rowing_physics_calibrate_drag, if_neg hw, if_neg hk]
    · rw [if_pos hA]
      simp only [rowing_physics_calibrate_drag, if_neg hw, if_neg hk]
      split_ifs <;> ring_nf
    · simp only [rowing_physics_calibrate_drag, if_neg hw, if_neg hk]
      simp only [hA, true_and]
      cases hcb : m.calibration_complete <;>
        by_cases h50 : 50 ≤ m.drag_calibration_samples + 1 <;>
        simp [hcb, h50]
  · have hres : rowing_physics_calibrate_drag m omega alpha = m := by
      simp only [rowing_physics_calibrate_drag]
      split_ifs with hsw hsk <;>
        first
          | rfl
          | (push_neg at hsk
             exact absurd ⟨not_lt.mp hsw, hsk.1, hsk.2⟩ hA)
    rw [hres]
    refine ⟨by rw [if_neg hA], by rw [if_neg hA], ?_⟩
    constructor
    · exact Or.inl
    · rintro (hc | ⟨hc, _⟩)
      · exact hc
      · exact absurd hc hA

/-- Every single stroke_detector_update step makes only an allowed phase
transition. -/
theorem detector_update_phase_allowed (cbrt : ℚ → ℚ) (g : DetectorConfig)
    (m : RowingMetrics) (now : ℤ) :
    detectorTransitionAllowed m.current_phase
      (stroke_detector_update cbrt g m now).current_phase := by
  cases hm : m.current_phase <;>
    simp only [stroke_detector_update, hm] <;>
    split_ifs <;>
    simp_all [detectorTransitionAllowed, calculate_distance_phase,
      calculate_stroke_rate_phase]

/-!
Claim C3.  On a stop command, session_manager_end_session commits a
SessionRecord exactly when stroke_count is at least 5 and the distance
at least 10 m, and in every case the controller ends with
current_session_id = 0 (state None).  The claim additionally states that
the session start timestamp is zeroed in every case, so that elapsed
time stops advancing; in the source the discard path resets only the
session id and leaves metrics->session_start_time_us (and
elapsed_time_ms) untouched, so the claim fails on the discard case.
-/

/-- C3 counterexample: stopping a 3-stroke, 5 m session discards the
record and sets the session id to 0, but the metrics keep their nonzero
session_start_time_us, contradicting the claim that the start timestamp
is zeroed in every case. -/
theorem claim3_counterexample :
    (session_manager_end_session discardSessionState discardMetrics).1.current_session_id
      = 0 ∧
    (session_manager_end_session discardSessionState discardMetrics).2.1.session_start_time_us
      = 1000000 ∧
    (1000000 : ℤ) ≠ 0 ∧
    (session_manager_end_session discardSessionState discardMetrics).2.1.elapsed_time_ms
      = 30000 := by
  have h : discardMetrics.stroke_count < 5 ∨ discardMetrics.total_distance_meters < 10 := by
    left
    norm_num [discardMetrics, zeroMetrics]
  refine ⟨?_, ?_, by norm_num, ?_⟩ <;>
    simp [session_manager_end_session, discardSessionState, if_pos h, discardMetrics,
      zeroMetrics]

/-- C3 amended: when a session is active and a stop command is issued
(NVS writes assumed to succeed), a SessionRecord is persisted if and
only if stroke_count is at least 5 and distance at least 10 m; in every
case the controller ends with session id 0 (state None); the session
start timestamp and elapsed time are zeroed in the commit case, while in
the discard case the metrics, including the running timer fields, are
left unchanged. -/
theorem claim3_amended_stop (s : SessionState) (m : RowingMetrics)
    (h : s.current_session_id ≠ 0) :
    ((∃ rec, (session_manager_end_session s m).2.2 = EndSessionOutcome.saved rec) ↔
      (5 ≤ m.stroke_count ∧ 10 ≤ m.total_distance_meters)) ∧
    (session_manager_end_session s m).1.current_session_id = 0 ∧
    (5 ≤ m.stroke_count ∧ 10 ≤ m.total_distance_meters →
      (session_manager_end_session s m).2.1.session_start_time_us = 0 ∧
      (session_manager_end_session s m).2.1.elapsed_time_ms = 0) ∧
    (¬ (5 ≤ m.stroke_count ∧ 10 ≤ m.total_distance_meters) →
      (session_manager_end_session s m).2.1 = m) := by
  by_cases hc : m.stroke_count < 5 ∨ m.total_distance_meters < 10
  · have h2 : ¬ (5 ≤ m.stroke_count ∧ 10 ≤ m.total_distance_meters) := by
      rcases hc with hc | hc
      · exact fun hx => absurd hx.1 (by omega)
      · exact fun hx => absurd hx.2 (by linarith)
    simp [session_manager_end_session, if_neg h, if_pos hc, h2]
  · have h2 : 5 ≤ m.stroke_count ∧ 10 ≤ m.total_distance_meters := by
      push_neg at hc
      exact ⟨hc.1, hc.2⟩
    simp [session_manager_end_session, if_neg h, if_neg hc, h2]

/-- C3 witness: stopping a 12-stroke, 95 m session zeroes the session
start timestamp, via the amended theorem. -/
theorem claim3_amended_stop_witness :
    (session_manager_end_session discardSessionState savedMetrics).2.1.session_start_time_us
      = 0 :=
  ((claim3_amended_stop discardSessionState savedMetrics
      (by norm_num [discardSessionState])).2.2.1
    (by constructor <;> norm_num [savedMetrics, zeroMetrics])).1

/-!
Claim C9.  The claim states that on every completed stroke the smoothed
rate is EMA-updated from the clamped instantaneous rate.  The source
guards the computation twice: with stroke_count below 2 the rate is
reset to 0 instead, and with a stroke cycle under 500 ms the previous
value is kept.  The claim fails on the first completed stroke.
-/

/-- C9 counterexample: after the first completed stroke (stroke count 1,
2 s cycle, previous rate 25 spm) the code outputs a stroke rate of 0,
while the claimed EMA update would give 0.7 * 25 + 0.3 * 30 = 26.5. -/
theorem claim9_counterexample :
    (stroke_detector_calculate_stroke_rate firstStrokeMetrics 3000000).stroke_rate_spm
      = 0 ∧
    0.7 * (25 : ℚ) + 0.3 * (60000 / (800 + 1200 : ℚ)) = 26.5 ∧
    (0 : ℚ) ≠ 26.5 := by
  refine ⟨?_, by norm_num, by norm_num⟩
  have h : firstStrokeMetrics.stroke_count < 2 := by
    norm_num [firstStrokeMetrics, zeroMetrics]
  simp [stroke_detector_calculate_stroke_rate, if_pos h]

/-- C9 amended: on every completed stroke from the second one on whose
drive plus recovery cycle is at least 500 ms, the instantaneous rate is
60000 / cycle_ms clamped to [10, 60] and the published rate is the EMA
0.7 * old + 0.3 * instantaneous, initialized to the instantaneous value
when the stored rate is still 0; on the first stroke the rate is reset
to 0, and for cycles under 500 ms the previous value is kept. -/
theorem claim9_amended_stroke_rate (m : RowingMetrics) (now : ℤ)
    (h2 : 2 ≤ m.stroke_count)
    (hc : 500 ≤ m.drive_phase_duration_ms + m.recovery_phase_duration_ms) :
    (stroke_detector_calculate_stroke_rate m now).stroke_rate_spm =
      (if m.stroke_rate_spm = 0 then
        clamp10_60
          (60000 / ((m.drive_phase_duration_ms + m.recovery_phase_duration_ms : ℕ) : ℚ))
      else
        0.7 * m.stroke_rate_spm +
          0.3 * clamp10_60
            (60000 /
              ((m.drive_phase_duration_ms + m.recovery_phase_duration_ms : ℕ) : ℚ))) := by
  have hn2 : ¬ (m.stroke_count < 2) := by omega
  have hnc : ¬ (m.drive_phase_duration_ms + m.recovery_phase_duration_ms < 500) := by omega
  simp only [stroke_detector_calculate_stroke_rate, if_neg hn2, if_neg hnc, clamp10_60]
  split_ifs <;> rfl

/-- C9 witness: after the second stroke with a 2 s cycle and previous
rate 25 spm the published rate is 0.7 * 25 + 0.3 * 30 = 26.5. -/
theorem claim9_amended_stroke_rate_witness :
    (stroke_detector_calculate_stroke_rate secondStrokeMetrics 3000000).stroke_rate_spm
      = 26.5 := by
  have h := claim9_amended_stroke_rate secondStrokeMetrics 3000000
    (by norm_num [secondStrokeMetrics, zeroMetrics])
    (by norm_num [secondStrokeMetrics, zeroMetrics])
  rw [h]
  norm_num [secondStrokeMetrics, zeroMetrics, clamp10_60]

/-!
Claim C2.  The claim states that the only phase transitions of any
processing step (flywheel pulse, seat trigger or idle-timeout tick) are
Idle to Drive, Drive to Recovery and Recovery to Idle or Drive, and in
particular that no step moves Drive directly to Idle.  The pulse and
seat-trigger steps indeed only make those transitions, but the
idle-timeout branch of sensor_processing_task sets current_phase to Idle
from any phase, including Drive, once no pulse arrived within
IDLE_TIMEOUT_MS while the rower was active.
-/

/-- C2 counterexample: an idle-timeout tick at 6000000 us with the last
pulse at 0 us moves an active Drive state directly to Idle. -/
theorem claim2_counterexample :
    (sensor_idle_check staleDriveMetrics 6000000 0 5).current_phase = StrokePhase.idle ∧
    staleDriveMetrics.current_phase = StrokePhase.drive := ⟨rfl, rfl⟩

/-- C2 amended: a flywheel-pulse step makes only the transitions Idle to
Drive, Drive to Recovery, and Recovery to Idle or Drive; a seat-trigger
step either keeps the phase or forces Drive from Idle or Recovery; the
idle-timeout tick either keeps the phase or forces Idle from any phase,
including Drive. -/
theorem claim2_amended_transitions (cbrt : ℚ → ℚ) (g : DetectorConfig) (m : RowingMetrics)
    (pulse_time now tlast : ℤ) (cnt : ℕ) :
    detectorTransitionAllowed m.current_phase
      (sensor_pulse_step cbrt g m pulse_time now).current_phase ∧
    ((stroke_detector_process_seat_trigger g m now).current_phase = m.current_phase ∨
      ((m.current_phase = StrokePhase.idle ∨ m.current_phase = StrokePhase.recovery) ∧
        (stroke_detector_process_seat_trigger g m now).current_phase
          = StrokePhase.drive)) ∧
    ((sensor_idle_check m now tlast cnt).current_phase = m.current_phase ∨
      (sensor_idle_check m now tlast cnt).current_phase = StrokePhase.idle) := by
  refine ⟨?_, ?_, ?_⟩
  · have hp := process_flywheel_pulse_phase m pulse_time
    have hd := detector_update_phase_allowed cbrt g
      (rowing_physics_process_flywheel_pulse m pulse_time) now
    rw [hp] at hd
    exact hd
  · simp only [stroke_detector_process_seat_trigger]
    split_ifs with h1 h2 h3 <;> simp_all
  · simp only [sensor_idle_check]
    split_ifs <;> simp

/-!
Claim C5.  The claim states that an in-range pulse publishes
omega = (2 pi / magnets_per_rev) / delta (within 1e-6; here 2 pi is the
TWO_PI constant of the source and the model arithmetic is exact, so the
difference is 0), and that an out-of-range pulse updates only the stored
pulse timestamp.  The second half fails: the out-of-range branch also
increments the raw flywheel pulse counter, which was bumped before the
range check.
-/

/-- C5 counterexample: a 51 s out-of-range pulse leaves omega unchanged
and updates the stored timestamp, but also increments
flywheel_pulse_count from 3 to 4, so the timestamp is not the only field
updated, contrary to the claim. -/
theorem claim5_counterexample :
    (rowing_physics_process_flywheel_pulse outOfRangeMetrics 51001000).flywheel_pulse_count
      = 4 ∧
    outOfRangeMetrics.flywheel_pulse_count = 3 ∧
    (rowing_physics_process_flywheel_pulse outOfRangeMetrics 51001000).angular_velocity_rad_s
      = outOfRangeMetrics.angular_velocity_rad_s ∧
    (rowing_physics_process_flywheel_pulse outOfRangeMetrics 51001000).last_flywheel_time_us
      = 51001000 ∧
    pulseDelta outOfRangeMetrics 51001000 > 10 := by
  have hout : pulseDelta outOfRangeMetrics 51001000 < 0.001 ∨
      pulseDelta outOfRangeMetrics 51001000 > 10 := by
    right
    norm_num [pulseDelta, outOfRangeMetrics, zeroMetrics]
  have h1 : outOfRangeMetrics.last_flywheel_time_us ≠ 0 := by
    norm_num [outOfRangeMetrics, zeroMetrics]
  simp only [rowing_physics_process_flywheel_pulse]
  rw [if_neg h1, if_pos hout]
  refine ⟨rfl, rfl, rfl, rfl, ?_⟩
  norm_num [pulseDelta, outOfRangeMetrics, zeroMetrics]

/-- C5 amended: for every flywheel pulse after the first, with delta the
inter-pulse interval in seconds: if delta is in (0.001, 10) the
published angular velocity equals (TWO_PI / magnets_per_rev) / delta, to
within 1e-6 of TWO_PI / (magnets_per_rev * delta), and the published
acceleration equals the pulseAlpha formula; if delta is out of range
(below 0.001 or above 10), omega and alpha keep their previous values,
the stored pulse timestamp is updated, the raw pulse counter increments,
and no other field changes. -/
theorem claim5_amended_pulse (m : RowingMetrics) (t : ℤ)
    (h1 : m.last_flywheel_time_us ≠ 0) :
    ((0.001 < pulseDelta m t ∧ pulseDelta m t < 10) →
      (rowing_physics_process_flywheel_pulse m t).angular_velocity_rad_s = pulseOmega m t ∧
      (rowing_physics_process_flywheel_pulse m t).angular_acceleration_rad_s2
        = pulseAlpha m t ∧
      |(rowing_physics_process_flywheel_pulse m t).angular_velocity_rad_s -
          TWO_PI / ((DEFAULT_MAGNETS_PER_REV : ℚ) * pulseDelta m t)| < 1 / 1000000) ∧
    ((pulseDelta m t < 0.001 ∨ pulseDelta m t > 10) →
      rowing_physics_process_flywheel_pulse m t
        = { m with
            flywheel_pulse_count := m.flywheel_pulse_count + 1
            last_flywheel_time_us := t }) := by
  constructor
  · intro hin
    have h2 : ¬ (pulseDelta m t < 0.001 ∨ pulseDelta m t > 10) := by
      push_neg
      exact ⟨le_of_lt hin.1, le_of_lt hin.2⟩
    have homega : (rowing_physics_process_flywheel_pulse m t).angular_velocity_rad_s
        = pulseOmega m t := by
      simp only [rowing_physics_process_flywheel_pulse]
      rw [if_neg h1, if_neg h2]
      split_ifs <;>
        simp [calculate_power_omega, calibrate_drag_omega, pulseValidMarked_omega]
    have halpha : (rowing_physics_process_flywheel_pulse m t).angular_acceleration_rad_s2
        = pulseAlpha m t := by
      simp only [rowing_physics_process_flywheel_pulse]
      rw [if_neg h1, if_neg h2]
      split_ifs <;>
        simp [calculate_power_alpha, calibrate_drag_alpha, pulseValidMarked_alpha]
    refine ⟨homega, halpha, ?_⟩
    rw [homega, pulseOmega, div_div, sub_self, abs_zero]
    norm_num
  · intro hout
    simp only [rowing_physics_process_flywheel_pulse]
    rw [if_neg h1, if_pos hout]

/-- C5 witness: an in-range 0.2 s pulse publishes exactly the pulseOmega
velocity, via the amended theorem. -/
theorem claim5_amended_pulse_witness :
    (rowing_physics_process_flywheel_pulse inRangeMetrics 800000).angular_velocity_rad_s
      = pulseOmega inRangeMetrics 800000 :=
  ((claim5_amended_pulse inRangeMetrics 800000
      (by norm_num [inRangeMetrics, zeroMetrics])).1
    (by constructor <;> norm_num [pulseDelta, inRangeMetrics, zeroMetrics])).1

/-!
Claim C6.  Drag calibration: a valid pulse contributes a sample exactly
when the phase is Recovery, the new acceleration is negative, the
velocity magnitude is at least 1 rad/s and the measured coefficient lies
in [0, 0.01]; the first accepted sample sets the coefficient, later ones
are folded in with the 0.95 / 0.05 EMA; the count increments per
acceptance and the completion flag becomes true exactly once the count
reaches 50, staying true across all detector and reset steps except
rowing_physics_reset_calibration.
-/

/-- C6: for every valid flywheel pulse (after the first, in-range), a
calibration sample is accepted exactly when dragSampleAccepted holds:
then the sample count increments, the coefficient becomes k_meas on the
first sample and 0.95 k + 0.05 k_meas afterwards, and the completion
flag is true exactly when it was already true or the new count reaches
50; on a rejected sample all three are unchanged.  The completion flag
is preserved by stroke_detector_update, by the seat trigger and by
rowing_physics_reset, and cleared only by
rowing_physics_reset_calibration. -/
theorem claim6_drag_calibration (m : RowingMetrics) (t : ℤ)
    (h1 : m.last_flywheel_time_us ≠ 0)
    (h2 : ¬ (pulseDelta m t < 0.001 ∨ pulseDelta m t > 10)) :
    ((rowing_physics_process_flywheel_pulse m t).drag_calibration_samples
        = (if dragSampleAccepted m t then m.drag_calibration_samples + 1
           else m.drag_calibration_samples)) ∧
    ((rowing_physics_process_flywheel_pulse m t).drag_coefficient
        = (if dragSampleAccepted m t then
             (if m.drag_calibration_samples = 0 then kMeas m t
              else 0.95 * m.drag_coefficient + 0.05 * kMeas m t)
           else m.drag_coefficient)) ∧
    ((rowing_physics_process_flywheel_pulse m t).calibration_complete = true ↔
        (m.calibration_complete = true ∨
          (dragSampleAccepted m t ∧ 50 ≤ m.drag_calibration_samples + 1))) ∧
    (∀ cbrt g now2, (stroke_detector_update cbrt g m now2).calibration_complete
        = m.calibration_complete) ∧
    (∀ g now2, (stroke_detector_process_seat_trigger g m now2).calibration_complete
        = m.calibration_complete) ∧
    (rowing_physics_reset m).calibration_complete = m.calibration_complete ∧
    (∀ cfg, (rowing_physics_reset_calibration m cfg).calibration_complete = false) := by
  have hstep : ∀ pred : RowingMetrics → Prop,
      (pred (rowing_physics_calculate_power
        (if m.current_phase = StrokePhase.recovery ∧ pulseAlpha m t < 0 then
          rowing_physics_calibrate_drag (pulseValidMarked m t)
            (pulseOmega m t) (pulseAlpha m t)
        else pulseValidMarked m t))) →
      pred (rowing_physics_process_flywheel_pulse m t) := by
    intro pred hp
    simpa only [rowing_physics_process_flywheel_pulse, if_neg h1, if_neg h2,
      pulseValidMarked_phase] using hp
  refine ⟨?_, ?_, ?_, fun cbrt g now2 => detector_update_complete cbrt g m now2,
    fun g now2 => seat_trigger_complete g m now2, rfl, fun cfg => rfl⟩
  · apply hstep fun r => r.drag_calibration_samples
      = (if dragSampleAccepted m t then m.drag_calibration_samples + 1
         else m.drag_calibration_samples)
    rw [calculate_power_samples]
    by_cases hg : m.current_phase = StrokePhase.recovery ∧ pulseAlpha m t < 0
    · rw [if_pos hg, (calibrate_drag_fields _ _ _).1, pulseValidMarked_samples,
        pulseValidMarked_moi]
      simp only [dragSampleAccepted, kMeas, hg.1, hg.2, true_and]
    · rw [if_neg hg, pulseValidMarked_samples]
      have hacc : ¬ dragSampleAccepted m t := fun hx => hg ⟨hx.1, hx.2.1⟩
      simp [hacc]
  · apply hstep fun r => r.drag_coefficient
      = (if dragSampleAccepted m t then
           (if m.drag_calibration_samples = 0 then kMeas m t
            else 0.95 * m.drag_coefficient + 0.05 * kMeas m t)
         else m.drag_coefficient)
    rw [calculate_power_k]
    by_cases hg : m.current_phase = StrokePhase.recovery ∧ pulseAlpha m t < 0
    · rw [if_pos hg, (calibrate_drag_fields _ _ _).2.1, pulseValidMarked_samples,
        pulseValidMarked_moi, pulseValidMarked_k]
      simp only [dragSampleAccepted, kMeas, hg.1, hg.2, true_and]
    · rw [if_neg hg, pulseValidMarked_k]
      have hacc : ¬ dragSampleAccepted m t := fun hx => hg ⟨hx.1, hx.2.1⟩
      simp [hacc]
  · apply hstep fun r => (r.calibration_complete = true ↔
        (m.calibration_complete = true ∨
          (dragSampleAccepted m t ∧ 50 ≤ m.drag_calibration_samples + 1)))
    rw [calculate_power_complete]
    by_cases hg : m.current_phase = StrokePhase.recovery ∧ pulseAlpha m t < 0
    · rw [if_pos hg, (calibrate_drag_fields _ _ _).2.2, pulseValidMarked_samples,
        pulseValidMarked_moi, pulseValidMarked_complete]
      simp only [dragSampleAccepted, kMeas, hg.1, hg.2, true_and]
    · rw [if_neg hg, pulseValidMarked_complete]
      have hacc : ¬ dragSampleAccepted m t := fun hx => hg ⟨hx.1, hx.2.1⟩
      simp [hacc]

/-- C6 witness: a concrete accepted recovery-phase sample takes the
count from 0 to 1, via the claim theorem. -/
theorem claim6_drag_calibration_witness :
    (rowing_physics_process_flywheel_pulse recoverySample 200000).drag_calibration_samples
      = 1 := by
  have h1 : recoverySample.last_flywheel_time_us ≠ 0 := by
    norm_num [recoverySample, zeroMetrics]
  have h2 : ¬ (pulseDelta recoverySample 200000 < 0.001 ∨
      pulseDelta recoverySample 200000 > 10) := by
    norm_num [pulseDelta, recoverySample, zeroMetrics]
  have hacc : dragSampleAccepted recoverySample 200000 := by
    refine ⟨rfl, ?_, ?_, ?_, ?_⟩ <;>
      norm_num [kMeas, pulseAlpha, pulseOmega, pulseDelta, TWO_PI,
        DEFAULT_MAGNETS_PER_REV, recoverySample, zeroMetrics, abs_of_nonneg,
        abs_of_nonpos]
  have h := (claim6_drag_calibration recoverySample 200000 h1 h2).1
  rw [if_pos hacc] at h
  simpa [recoverySample, zeroMetrics] using h

/-!
Claim C1.  Per-stroke distance: when a drive of at least
MINIMUM_STROKE_DURATION_MS completes, the claim states that the added
distance is the cube root of (drive work / 2.80) clamped to [2, 20], so
always in [2, 20], with the work accumulator reset.  The source applies
that formula only when the accumulated drive work exceeds the 0.1 J
noise threshold; otherwise the per-stroke distance is 0, outside
[2, 20].  A zero-work completed drive of valid duration is reachable,
because power is accumulated only on pulses whose clamped instantaneous
power is positive.
-/

set_option maxHeartbeats 2000000 in
/-- C1 counterexample: a decelerating pulse at 800000 us ends an 800 ms
drive (over the 500 ms minimum, counting the stroke) during which no
work was accumulated, and the per-stroke distance is 0, not in [2, 20]
and not the clamped cube root of work / 2.80 (which would be at least
2). -/
theorem claim1_counterexample :
    (sensor_pulse_step (fun x => x) defaultDetectorConfig
        zeroWorkDriveMetrics 800000 800000).stroke_count = 1 ∧
    (sensor_pulse_step (fun x => x) defaultDetectorConfig
        zeroWorkDriveMetrics 800000 800000).current_phase = StrokePhase.recovery ∧
    (sensor_pulse_step (fun x => x) defaultDetectorConfig
        zeroWorkDriveMetrics 800000 800000).drive_phase_duration_ms = 800 ∧
    500 ≤ 800 ∧
    (sensor_pulse_step (fun x => x) defaultDetectorConfig
        zeroWorkDriveMetrics 800000 800000).distance_per_stroke_meters = 0 ∧
    ¬ (2 ≤ (0 : ℚ)) := by
  have hd : u32ofInt (Int.tdiv 800000 1000) = 800 := by decide
  refine ⟨?_, ?_, ?_, by norm_num, ?_, by norm_num⟩ <;>
    norm_num [sensor_pulse_step, rowing_physics_process_flywheel_pulse,
      pulseValidMarked, pulsePeakTracked, pulseKinematics, pulseOmega, pulseAlpha,
      pulseDelta, rowing_physics_calculate_power, powerClamped, concept2Clamped,
      rowing_physics_calibrate_drag, stroke_detector_update,
      stroke_detector_calculate_stroke_rate, rowing_physics_calculate_distance,
      rowing_physics_calculate_pace, clamp2_20, hd, TWO_PI, DEFAULT_MAGNETS_PER_REV,
      MINIMUM_STROKE_DURATION_MS, defaultDetectorConfig,
      DRIVE_START_VELOCITY_THRESHOLD, DRIVE_ACCELERATION_THRESHOLD,
      RECOVERY_VELOCITY_THRESHOLD, DEFAULT_DISTANCE_PER_REV,
      zeroWorkDriveMetrics, zeroMetrics]

/-- C1 amended: when a drive completes (phase Drive, decelerating below
90 percent of the peak velocity) with duration at least
MINIMUM_STROKE_DURATION_MS, the stroke is counted and the per-stroke
distance added to the total is the cube root of (drive work / 2.80)
clamped to [2, 20] whenever the accumulated drive work exceeds 0.1 J,
and 0 otherwise; in the former case it always lies in [2, 20]; the
drive-work accumulator is reset to 0 in both cases. -/
theorem claim1_amended_stroke_distance (cbrt : ℚ → ℚ) (g : DetectorConfig)
    (m : RowingMetrics) (now : ℤ)
    (hph : m.current_phase = StrokePhase.drive)
    (ha : m.angular_acceleration_rad_s2 < 0)
    (hpk : m.angular_velocity_rad_s ≤ m.peak_velocity_in_stroke)
    (htr : m.angular_velocity_rad_s < m.peak_velocity_in_stroke * 0.9)
    (hdur : u32ofInt (Int.tdiv (now - m.last_stroke_start_time_us) 1000)
      ≥ MINIMUM_STROKE_DURATION_MS) :
    (stroke_detector_update cbrt g m now).current_phase = StrokePhase.recovery ∧
    (stroke_detector_update cbrt g m now).stroke_count = m.stroke_count + 1 ∧
    (stroke_detector_update cbrt g m now).drive_phase_duration_ms
      = u32ofInt (Int.tdiv (now - m.last_stroke_start_time_us) 1000) ∧
    (stroke_detector_update cbrt g m now).distance_per_stroke_meters
      = (if m.drive_phase_work_joules > 0.1 then
          clamp2_20 (cbrt (m.drive_phase_work_joules / 2.80)) else 0) ∧
    (stroke_detector_update cbrt g m now).total_distance_meters
      = m.total_distance_meters +
        (if m.drive_phase_work_joules > 0.1 then
          clamp2_20 (cbrt (m.drive_phase_work_joules / 2.80)) else 0) ∧
    (stroke_detector_update cbrt g m now).drive_phase_work_joules = 0 ∧
    (m.drive_phase_work_joules > 0.1 →
      2 ≤ (stroke_detector_update cbrt g m now).distance_per_stroke_meters ∧
      (stroke_detector_update cbrt g m now).distance_per_stroke_meters ≤ 20) := by
  have hnpk : ¬ (m.angular_velocity_rad_s > m.peak_velocity_in_stroke) := not_lt.mpr hpk
  have hstep : stroke_detector_update cbrt g m now
      = rowing_physics_calculate_distance cbrt
          (stroke_detector_calculate_stroke_rate
            { m with
              current_phase := StrokePhase.recovery
              last_stroke_end_time_us := now
              drive_phase_duration_ms :=
                u32ofInt (Int.tdiv (now - m.last_stroke_start_time_us) 1000)
              stroke_count := m.stroke_count + 1 } now)
          g.distance_calibration := by
    simp only [stroke_detector_update, hph, if_neg hnpk, if_pos (And.intro ha htr),
      if_pos hdur]
  rw [hstep]
  refine ⟨?_, ?_, ?_, ?_, ?_, ?_, ?_⟩ <;>
    simp only [rowing_physics_calculate_distance, calculate_pace_phase,
      calculate_pace_total, calculate_pace_dps, calculate_pace_work,
      calculate_pace_count, calculate_pace_duration, calculate_stroke_rate_phase,
      calculate_stroke_rate_total, calculate_stroke_rate_dps,
      calculate_stroke_rate_work, calculate_stroke_rate_count,
      calculate_stroke_rate_duration]
  intro hw
  rw [if_pos hw]
  exact clamp2_20_bounds _

/-- C1 witness: a drive finishing at 700000 us with 22.4 J of work adds
the clamped cube-root distance; with the cube root evaluating to 2 the
per-stroke distance is 2. -/
theorem claim1_amended_stroke_distance_witness :
    (stroke_detector_update (fun _ => 2) defaultDetectorConfig
        finishingDriveMetrics 700000).distance_per_stroke_meters = 2 := by
  have hdur : u32ofInt
      (Int.tdiv ((700000 : ℤ) - finishingDriveMetrics.last_stroke_start_time_us) 1000)
      ≥ MINIMUM_STROKE_DURATION_MS := by
    show u32ofInt (Int.tdiv ((700000 : ℤ) - 0) 1000) ≥ 500
    decide
  have h := (claim1_amended_stroke_distance (fun _ => 2) defaultDetectorConfig
    finishingDriveMetrics 700000
    rfl
    (by norm_num [finishingDriveMetrics, zeroMetrics])
    (by norm_num [finishingDriveMetrics, zeroMetrics])
    (by norm_num [finishingDriveMetrics, zeroMetrics])
    hdur).2.2.2.1
  rw [h]
  norm_num [finishingDriveMetrics, zeroMetrics, clamp2_20]

end RowingMachine
